import Mathlib

/-!
Verification of `supersimpleserver.py` (a single-file static HTTP server).

The development shallowly embeds the request handler `SimpleHTTPRequestHandler`
(`do_GET`, lines 28-70, and `do_POST`, lines 72-97) together with the stdlib
collaborators it calls on the request path:

* `urllib.parse.urlparse(...).path` — extraction of the path component of the
  request target (whitespace strip, tab/CR/LF removal, scheme split, netloc
  split, fragment split, query split, params split), modelled on `List Char`;
* `str.lstrip('/')`, `os.path.join`, `os.path.normpath`, `str.startswith`;
* `os.path.exists`, `os.path.isfile`, `os.path.getsize`, `open(...).read()`
  over an abstract filesystem `FS : String → FsEntry`;
* `mimetypes.guess_type` as an extension table with the
  `application/octet-stream` fallback of lines 55-57;
* `BaseHTTPRequestHandler.send_error` (status line, headers and the default
  HTML error page with the escaped message interpolated).

The handler's observable output is a `List WireEvent`: the sequence of status
lines, headers and body chunks written to the socket, in program order.  Each
filesystem call observes the filesystem at its own call time, so the general
entry point `do_GET_at` takes one filesystem snapshot per call site
(`exists`, `isfile`, `getsize`, `read`); the quiescent server `do_GET` uses a
single snapshot for all four.
-/

set_option autoImplicit false

/-! ### Generic character-list utilities -/

/-- Characters of `l` strictly before the first occurrence of `c`
(`l` itself when `c` does not occur): Python `l.split(c, 1)[0]`. -/
def takeUntil (c : Char) : List Char → List Char
  | [] => []
  | x :: xs => if x = c then [] else x :: takeUntil c xs

/-- Python `str.split(c)`: always returns a non-empty list of (possibly
empty) chunks. -/
def splitChar (c : Char) : List Char → List (List Char)
  | [] => [[]]
  | x :: xs =>
    if x = c then [] :: splitChar c xs
    else
      match splitChar c xs with
      | r :: rs => (x :: r) :: rs
      | [] => [[x]]

/-- The suffix of `l` after its last `'/'` (all of `l` when `'/'` does not
occur). -/
def afterLastSlash (l : List Char) : List Char :=
  (l.reverse.takeWhile (fun c => c != '/')).reverse

/-! ### `urllib.parse.urlparse(url).path`

Modelled from the CPython `urlsplit`/`urlparse` pair as executed on a request
target: strip leading C0-control-or-space characters (CPython lstrips only,
deliberately preserving trailing characters), remove tab/CR/LF, split off a
scheme (only when the text before the first `':'` is a well-formed scheme
starting with a letter), split off the authority when the remainder starts
with `"//"`, drop the fragment (first `'#'`), drop the query (first `'?'`),
and finally split params (first `';'` of the last path segment). -/

/-- WHATWG C0-control-or-space predicate used by `urlsplit` to strip the
start of the URL. -/
def c0OrSpace (c : Char) : Bool := decide (c ≤ ' ')

/-- The three characters `urlsplit` removes from anywhere in the URL. -/
def tabCrLf (c : Char) : Bool := c == '\t' || c == '\r' || c == '\n'

/-- Characters allowed in a URL scheme after the initial letter. -/
def schemeChar (c : Char) : Bool := c.isAlphanum || c == '+' || c == '-' || c == '.'

/-- Strip C0-control-or-space characters from the start only, as `urlsplit`
does (its comment: only lstrip, some applications rely on preserving
trailing space). -/
def stripC0 (l : List Char) : List Char :=
  l.dropWhile c0OrSpace

/-- Whether the first character exists and is an ASCII letter. -/
def headIsAlpha (l : List Char) : Bool :=
  match l.head? with
  | some c => c.isAlpha
  | none => false

/-- Drop a leading `scheme:` when present and well formed. -/
def schemeSplit (l : List Char) : List Char :=
  match l.findIdx? (fun c => c == ':') with
  | some i =>
    if 0 < i ∧ headIsAlpha l = true ∧ (l.take i).all schemeChar = true then
      l.drop (i + 1)
    else l
  | none => l

/-- Given a URL starting with `"//"`, drop the authority: everything from
position 2 up to (excluding) the first `'/'`, `'?'` or `'#'`. -/
def dropNetloc (l : List Char) : List Char :=
  (l.drop 2).dropWhile (fun c => c != '/' && c != '?' && c != '#')

/-- CPython `_splitparams` applied to a path: cut the last segment at its
first `';'` (identity when the last segment has no `';'`). -/
def splitParamsL (l : List Char) : List Char :=
  let seg := afterLastSlash l
  l.take (l.length - seg.length) ++ takeUntil ';' seg

/-- The `path` component of `urllib.parse.urlparse` on a character list. -/
def urlPathL (url : List Char) : List Char :=
  let u1 := stripC0 url
  let u2 := u1.filter (fun c => !(tabCrLf c))
  let u3 := schemeSplit u2
  let u4 := if u3.take 2 = ['/', '/'] then dropNetloc u3 else u3
  let u5 := takeUntil '#' u4
  let u6 := takeUntil '?' u5
  splitParamsL u6

/-- `urllib.parse.urlparse(s).path` (line 31-32 of the handler). -/
def urlPath (s : String) : String := ⟨urlPathL s.data⟩

/-! ### `os.path` collaborators -/

/-- Python `path.lstrip('/')`. -/
def lstripSlash (s : String) : String := ⟨s.data.dropWhile (fun c => c == '/')⟩

/-- POSIX `os.path.join` for two components: `b` absolute replaces `a`;
otherwise concatenate, inserting `'/'` unless `a` is empty or already ends
with `'/'`. -/
def joinL (a b : List Char) : List Char :=
  if b.take 1 = ['/'] then b
  else if a = [] ∨ a.getLast? = some '/' then a ++ b
  else a ++ '/' :: b

/-- `os.path.join` on strings. -/
def osJoin (a b : String) : String := ⟨joinL a.data b.data⟩

/-- The component loop of POSIX `os.path.normpath`: skip empty and `"."`
components; append a component unless it is `".."` eligible for popping; pop
the accumulator on such a `".."` (a `".."` above the root of an absolute path
is dropped).  `racc` is the accumulator in reverse order; `isl` is the number
of initial slashes (0 for relative paths). -/
def normComps (isl : Nat) (racc : List (List Char)) : List (List Char) → List (List Char)
  | [] => racc
  | comp :: rest =>
    if comp = [] ∨ comp = ['.'] then normComps isl racc rest
    else if comp ≠ ['.', '.'] ∨ (isl = 0 ∧ racc = []) ∨ racc.head? = some ['.', '.'] then
      normComps isl (comp :: racc) rest
    else
      normComps isl racc.tail rest

/-- POSIX `os.path.normpath` on a character list: empty input yields `"."`;
one or (exactly) two initial slashes are preserved; components are collapsed
by `normComps`; an empty result yields `"."`. -/
def normpathL (p : List Char) : List Char :=
  if p = [] then ['.']
  else
    let isl : Nat :=
      if p.take 1 ≠ ['/'] then 0
      else if p.take 2 = ['/', '/'] ∧ p.take 3 ≠ ['/', '/', '/'] then 2
      else 1
    let comps := (normComps isl [] (splitChar '/' p)).reverse
    let res := List.replicate isl '/' ++ List.intercalate ['/'] comps
    if res = [] then ['.'] else res

/-- `os.path.normpath` on strings. -/
def normpathS (s : String) : String := ⟨normpathL s.data⟩

/-- Python `s.startswith(pre)` (the containment check of line 45). -/
def startsWithB (s pre : String) : Bool := pre.data.isPrefixOf s.data

/-! ### `mimetypes.guess_type` -/

/-- `posixpath.splitext`-style extension of a path: the last `'.'`-suffix of
the final path segment, empty when the segment has no dot or only leading
dots before the last dot. -/
def extL (p : List Char) : List Char :=
  let seg := afterLastSlash p
  let e := (seg.reverse.takeWhile (fun c => c != '.')).reverse
  if e.length = seg.length then []
  else if (seg.take (seg.length - e.length - 1)).all (fun c => c == '.') then []
  else '.' :: e

/-- Lines 55-57: `mimetypes.guess_type` (modelled as the stdlib table for the
common extensions exercised here) with the `application/octet-stream`
fallback when the table yields no type. -/
def guessType (p : String) : String :=
  let e : String := ⟨(extL p.data).map Char.toLower⟩
  if e = ".html" ∨ e = ".htm" then "text/html"
  else if e = ".css" then "text/css"
  else if e = ".js" then "text/javascript"
  else if e = ".json" then "application/json"
  else if e = ".png" then "image/png"
  else if e = ".jpg" ∨ e = ".jpeg" then "image/jpeg"
  else if e = ".gif" then "image/gif"
  else if e = ".txt" then "text/plain"
  else if e = ".pdf" then "application/pdf"
  else "application/octet-stream"

/-! ### Filesystem model -/

/-- A filesystem entry: a regular file with its content bytes and a
readability flag (modelling read permission for `open`), a directory with its
`st_size`, or nothing at that path. -/
inductive FsEntry
  | file (content : List Nat) (readable : Bool)
  | dir (size : Nat)
  | missing
deriving DecidableEq

/-- A filesystem snapshot: the entry at each absolute path. -/
def FS := String → FsEntry

/-- `os.path.exists`. -/
def pyExists : FsEntry → Bool
  | .missing => false
  | _ => true

/-- `os.path.isfile`. -/
def pyIsfile : FsEntry → Bool
  | .file _ _ => true
  | _ => false

/-- `os.path.getsize` (`st_size`): defined on files and directories; the
`.missing` case raises in Python and is handled separately by the caller. -/
def getsize : FsEntry → Nat
  | .file c _ => c.length
  | .dir sz => sz
  | .missing => 0

/-- A filesystem holding a single entry. -/
def fsOne (q : String) (e : FsEntry) : FS :=
  fun p => if p = q then e else .missing

/-! ### Wire output model -/

/-- One item written to the client socket. `statusLine` covers
`send_response` (the Server and Date headers it also emits are elided: they
carry no content any claim mentions); `bodyBytes` is raw file content,
`bodyText` a UTF-8 page. -/
inductive WireEvent
  | statusLine (code : Nat)
  | header (name value : String)
  | endHeaders
  | bodyBytes (content : List Nat)
  | bodyText (s : String)
deriving DecidableEq

/-- `html.escape(s, quote=False)` as used by `send_error`. -/
def htmlEscape (s : String) : String :=
  ⟨s.data.flatMap (fun c =>
    if c = '&' then "&amp;".data
    else if c = '<' then "&lt;".data
    else if c = '>' then "&gt;".data
    else [c])⟩

/-- The `explain` text of the stdlib responses table for the codes the
handler uses. -/
def errorExplain (code : Nat) : String :=
  if code = 403 then "Request forbidden -- authorization will not help"
  else if code = 404 then "Nothing matches the given URI"
  else if code = 500 then "Server got itself in trouble"
  else ""

/-- The stdlib `DEFAULT_ERROR_MESSAGE` page with code, escaped message and
escaped explanation interpolated. -/
def errorPage (code : Nat) (message : String) : String :=
  "<!DOCTYPE HTML>\n<html lang=\"en\">\n    <head>\n        <meta charset=\"utf-8\">\n        <title>Error response</title>\n    </head>\n    <body>\n        <h1>Error response</h1>\n        <p>Error code: "
    ++ toString code
    ++ "</p>\n        <p>Message: "
    ++ htmlEscape message
    ++ ".</p>\n        <p>Error code explanation: "
    ++ toString code
    ++ " - "
    ++ htmlEscape (errorExplain code)
    ++ ".</p>\n    </body>\n</html>\n"

/-- `BaseHTTPRequestHandler.send_error(code, message)`: status line,
`Connection: close`, `Content-Type`, `Content-Length` (UTF-8 byte length of
the page) and the error page body. -/
def sendError (code : Nat) (message : String) : List WireEvent :=
  let body := errorPage code message
  [.statusLine code,
   .header "Connection" "close",
   .header "Content-Type" "text/html;charset=utf-8",
   .header "Content-Length" (toString body.utf8ByteSize),
   .endHeaders,
   .bodyText body]

/-- The status codes appearing on the wire, in order. -/
def statusCodes (t : List WireEvent) : List Nat :=
  t.filterMap (fun e => match e with | .statusLine c => some c | _ => none)

/-! ### Exception messages (`str(e)` for the OSErrors the serving path can
raise) -/

/-- `str(FileNotFoundError)` from `os.path.getsize`/`open` on a missing
path. -/
def fileNotFoundMsg (p : String) : String :=
  "[Errno 2] No such file or directory: \x27" ++ p ++ "\x27"

/-- `str(PermissionError)` from `open` on an unreadable file. -/
def permDeniedMsg (p : String) : String :=
  "[Errno 13] Permission denied: \x27" ++ p ++ "\x27"

/-- `str(IsADirectoryError)` from `open` on a directory. -/
def isDirMsg (p : String) : String :=
  "[Errno 21] Is a directory: \x27" ++ p ++ "\x27"

/-! ### The GET handler (lines 28-70) -/

/-- Lines 31-42: parse the request target, substitute `index.html` for `/`,
strip leading slashes, join with the root and normalize — the candidate
`file_path`. -/
def resolveGet (cwd reqPath : String) : String :=
  let path := urlPath reqPath
  let path := if path = "/" then "/index.html" else path
  normpathS (osJoin cwd (lstripSlash path))

/-- Lines 45-70 applied to an already resolved `file_path`.  The four `FS`
arguments are the filesystem snapshots observed by, in program order,
`os.path.exists` (line 50), `os.path.isfile` (line 50), `os.path.getsize`
(line 62) and `open(...).read()` (lines 66-67).  The second component of the
result records whether control reached the existence check of line 50.
Failures of `getsize`/`open`/`read` are caught by the `except` of line 69 and
mapped to `send_error(500, ...)`.  `send_response`/`send_header` only buffer
the status line and headers; `end_headers` flushes the buffer.  So when
`getsize` raises at line 62 the already buffered 200 status line and
`Content-type` header are flushed ahead of the 500 output by `send_error`'s
own `end_headers` (the `Content-Length` header and line 63 were never
reached); and when `open`/`read` fails, the full 200 header block (flushed at
line 63) precedes the 500 output.  Either way the error output follows a 200
status line on the same request. -/
def serveFile (fsE fsF fsS fsR : FS) (cwd file_path : String) : List WireEvent × Bool :=
  if startsWithB file_path cwd = false then
    (sendError 403 "Forbidden: Access denied.", false)
  else if pyExists (fsE file_path) = false ∨ pyIsfile (fsF file_path) = false then
    (sendError 404 "File not found", true)
  else
    let content_type := guessType file_path
    match fsS file_path with
    | .missing =>
      ([WireEvent.statusLine 200, WireEvent.header "Content-type" content_type] ++
        sendError 500 ("Internal Server Error: " ++ fileNotFoundMsg file_path), true)
    | entry =>
      let hdrs : List WireEvent :=
        [.statusLine 200,
         .header "Content-type" content_type,
         .header "Content-Length" (toString (getsize entry)),
         .endHeaders]
      match fsR file_path with
      | .file content true => (hdrs ++ [.bodyBytes content], true)
      | .file _ false =>
        (hdrs ++ sendError 500 ("Internal Server Error: " ++ permDeniedMsg file_path), true)
      | .dir _ =>
        (hdrs ++ sendError 500 ("Internal Server Error: " ++ isDirMsg file_path), true)
      | .missing =>
        (hdrs ++ sendError 500 ("Internal Server Error: " ++ fileNotFoundMsg file_path), true)

/-- `do_GET` with one filesystem snapshot per filesystem call site. -/
def do_GET_at (fsE fsF fsS fsR : FS) (cwd reqPath : String) : List WireEvent × Bool :=
  serveFile fsE fsF fsS fsR cwd (resolveGet cwd reqPath)

/-- `do_GET` against a quiescent filesystem (every call observes the same
snapshot). -/
def do_GET (fs : FS) (cwd reqPath : String) : List WireEvent × Bool :=
  do_GET_at fs fs fs fs cwd reqPath

/-! ### The POST handler (lines 72-97) -/

/-- The f-string template of lines 86-95 with `self.path` and the decoded
body interpolated. -/
def postPage (path postData : String) : String :=
  "\n        <html>\n        <head><title>POST Response</title></head>\n        <body>\n        <h1>POST Request Received</h1>\n        <p>Path: "
    ++ path
    ++ "</p>\n        <p>Data: "
    ++ postData
    ++ "</p>\n        </body>\n        </html>\n        "

/-- Lines 72-97: `do_POST` for a request whose `Content-Length` header is
well formed and whose body bytes decode as UTF-8 — `postData` is the decoded
body (`post_data.decode('utf-8')`), `path` is the raw `self.path`.  Logging
is elided. -/
def do_POST (path postData : String) : List WireEvent :=
  [.statusLine 200,
   .header "Content-type" "text/html",
   .endHeaders,
   .bodyText (postPage path postData)]

/-- The failure cases of the serving phase after the checks of lines 45-50
passed, with the `str(e)` text each produces: a path vanished before
`getsize` (line 62), or `open` (line 66) hitting an unreadable file, a
directory, or a vanished path. -/
def readFailMsg (fsS fsR : FS) (fp : String) : Option String :=
  match fsS fp with
  | .missing => some (fileNotFoundMsg fp)
  | _ =>
    match fsR fp with
    | .file _ true => none
    | .file _ false => some (permDeniedMsg fp)
    | .dir _ => some (isDirMsg fp)
    | .missing => some (fileNotFoundMsg fp)

/-! ### Sanity evaluations of the embedding on concrete inputs -/

example : urlPath "/f?x=1" = "/f" := by decide
example : urlPath "/a?b#c" = "/a" := by decide
example : urlPath "//" = "" := by decide
example : urlPath "///" = "/" := by decide
example : urlPath "//host/x" = "/x" := by decide
example : urlPath "/index.html" = "/index.html" := by decide
example : normpathS "/srv/site/../site2/secret" = "/srv/site2/secret" := by decide
example : normpathS "/srv/site/a/../../../.." = "/" := by decide
example : normpathS "/srv/site/" = "/srv/site" := by decide
example : normpathS "" = "." := by decide
example : resolveGet "/srv/site" "/" = "/srv/site/index.html" := by decide
example : resolveGet "/srv/site" "//" = "/srv/site" := by decide
example : resolveGet "/srv/site" "/../etc/passwd" = "/srv/etc/passwd" := by decide
example : resolveGet "/srv/site" "/../site2/secret" = "/srv/site2/secret" := by decide
example : startsWithB "/srv/site2/secret" "/srv/site" = true := by decide
example : startsWithB "/srv/etc/passwd" "/srv/site" = false := by decide
example : guessType "/srv/site/index.html" = "text/html" := by decide
example : guessType "/srv/site/secret" = "application/octet-stream" := by decide

/-! ### Helper lemmas -/

/-- `isPrefixOf` is reflexive on character lists. -/
theorem isPrefixOf_self (l : List Char) : l.isPrefixOf l = true := by
  induction l with
  | nil => rfl
  | cons a t ih => simp [List.isPrefixOf, ih]

/-- Every string starts with itself. -/
theorem startsWithB_self (s : String) : startsWithB s s = true :=
  isPrefixOf_self s.data

/-- `send_error` writes exactly one status line, carrying its code. -/
theorem statusCodes_sendError (c : Nat) (m : String) :
    statusCodes (sendError c m) = [c] := rfl

/-- `statusCodes` distributes over concatenated wire output. -/
theorem statusCodes_append (a b : List WireEvent) :
    statusCodes (a ++ b) = statusCodes a ++ statusCodes b :=
  List.filterMap_append ..

/-- The error page contains the escaped message verbatim. -/
theorem errorPage_contains (code : Nat) (message : String) :
    ∃ b1 b2, errorPage code message = b1 ++ htmlEscape message ++ b2 := by
  refine ⟨"<!DOCTYPE HTML>\n<html lang=\"en\">\n    <head>\n        <meta charset=\"utf-8\">\n        <title>Error response</title>\n    </head>\n    <body>\n        <h1>Error response</h1>\n        <p>Error code: "
      ++ toString code ++ "</p>\n        <p>Message: ",
    ".</p>\n        <p>Error code explanation: " ++ toString code ++ " - "
      ++ htmlEscape (errorExplain code) ++ ".</p>\n    </body>\n</html>\n", ?_⟩
  simp [errorPage, String.append_assoc]

/-! ### Claim theorems -/

/-- Claim C1, counterexample: the containment check of line 45 is a string
prefix test, so the request path `/../site2/secret` — which is of the form
`/../<anything>` and normalizes to `/srv/site2/secret`, a location outside
the root `/srv/site` (not the root and not below `/srv/site/`) — is not
rejected: the existence check is reached and, the file existing, the
response is 200, not 403. -/
theorem c1_counterexample :
    resolveGet "/srv/site" "/../site2/secret" = "/srv/site2/secret" ∧
    startsWithB "/srv/site2/secret" "/srv/site/" = false ∧
    "/srv/site2/secret" ≠ "/srv/site" ∧
    statusCodes (do_GET (fsOne "/srv/site2/secret" (FsEntry.file [42] true))
      "/srv/site" "/../site2/secret").1 = [200] ∧
    (do_GET (fsOne "/srv/site2/secret" (FsEntry.file [42] true))
      "/srv/site" "/../site2/secret").2 = true := by
  decide

/-- Claim C1 (amended): for every GET request path whose normalized joined
path fails the string-prefix containment check of line 45 (it does not start
with the root's path string), the handler responds 403 and nothing else, for
every filesystem state at every call site — in particular the response never
depends on the filesystem, never is 200, and the existence check of line 50
is never reached (the flag is `false`).  Paths normalizing outside the root
that do share the root string as a prefix (a sibling such as `/srv/site2`
for root `/srv/site`) escape the check, per the counterexample. -/
theorem c1_outside_root_forbidden (fsE fsF fsS fsR : FS) (cwd reqPath : String)
    (h : startsWithB (resolveGet cwd reqPath) cwd = false) :
    do_GET_at fsE fsF fsS fsR cwd reqPath =
      (sendError 403 "Forbidden: Access denied.", false) := by
  unfold do_GET_at serveFile
  rw [h, if_pos rfl]

/-- Witness for `c1_outside_root_forbidden`: the traversal path
`/../etc/passwd` under root `/srv/site` (normalizing to `/srv/etc/passwd`)
is rejected with 403 even though the target file exists and is readable. -/
theorem c1_outside_root_forbidden_witness :
    do_GET_at (fsOne "/srv/etc/passwd" (FsEntry.file [42] true))
        (fsOne "/srv/etc/passwd" (FsEntry.file [42] true))
        (fsOne "/srv/etc/passwd" (FsEntry.file [42] true))
        (fsOne "/srv/etc/passwd" (FsEntry.file [42] true))
        "/srv/site" "/../etc/passwd" =
      (sendError 403 "Forbidden: Access denied.", false) :=
  c1_outside_root_forbidden _ _ _ _ "/srv/site" "/../etc/passwd" (by decide)

/-- Claim C2, counterexample: `/srv/site/f.txt` exists and is a regular
file, and `/f.txt` normalizes inside the root, yet the response is not 200
with the file's bytes: the file being unreadable, `open` (line 66) raises
after the 200 status line and headers were already sent (lines 60-63), the
`except` of line 69 emits a 500 error output, and the file's bytes are never
written. -/
theorem c2_counterexample :
    (fsOne "/srv/site/f.txt" (FsEntry.file [104, 105] false))
        (resolveGet "/srv/site" "/f.txt") = FsEntry.file [104, 105] false ∧
    statusCodes (do_GET (fsOne "/srv/site/f.txt" (FsEntry.file [104, 105] false))
      "/srv/site" "/f.txt").1 = [200, 500] ∧
    WireEvent.bodyBytes [104, 105] ∉
      (do_GET (fsOne "/srv/site/f.txt" (FsEntry.file [104, 105] false))
        "/srv/site" "/f.txt").1 := by
  decide

/-- Claim C2 (amended): for every GET request path that normalizes inside
the root (passes the line-45 check) and names an existing *readable* regular
file with content bytes `c`, the quiescent-filesystem response is exactly a
200 status line, the guessed `Content-type`, a `Content-Length` equal to
`c.length` (the byte length of the contents at read time), the end of
headers, and a body byte-identical to `c`. -/
theorem c2_serves_readable_file (fs : FS) (cwd reqPath : String) (c : List Nat)
    (hpre : startsWithB (resolveGet cwd reqPath) cwd = true)
    (hfs : fs (resolveGet cwd reqPath) = FsEntry.file c true) :
    (do_GET fs cwd reqPath).1 =
      [WireEvent.statusLine 200,
       WireEvent.header "Content-type" (guessType (resolveGet cwd reqPath)),
       WireEvent.header "Content-Length" (toString c.length),
       WireEvent.endHeaders,
       WireEvent.bodyBytes c] := by
  unfold do_GET do_GET_at serveFile
  rw [hpre, hfs]
  simp [pyExists, pyIsfile, getsize]

/-- Witness for `c2_serves_readable_file`: a two-byte readable file is
served byte-identically with `Content-Length: 2`. -/
theorem c2_serves_readable_file_witness :
    (do_GET (fsOne "/srv/site/f.txt" (FsEntry.file [104, 105] true))
      "/srv/site" "/f.txt").1 =
      [WireEvent.statusLine 200,
       WireEvent.header "Content-type" "text/plain",
       WireEvent.header "Content-Length" "2",
       WireEvent.endHeaders,
       WireEvent.bodyBytes [104, 105]] :=
  (c2_serves_readable_file (fsOne "/srv/site/f.txt" (FsEntry.file [104, 105] true))
    "/srv/site" "/f.txt" [104, 105] (by decide) (by decide)).trans (by decide)

/-- Claim C3, refutation at the failing input (code bug): the handler takes
`Content-Length` from `os.path.getsize` (line 62), a filesystem-metadata
query performed before the read of lines 66-67, not from the read itself.
When the file holds 5 bytes at the `getsize` call but has been truncated to
2 bytes by the time of the read, the response declares `Content-Length: 5`
over a 2-byte body — impossible had the length been computed from the same
read that produced the body, as the claim states. -/
theorem c3_content_length_from_metadata :
    (do_GET_at (fsOne "/srv/site/f.txt" (FsEntry.file [104, 101, 108, 108, 111] true))
        (fsOne "/srv/site/f.txt" (FsEntry.file [104, 101, 108, 108, 111] true))
        (fsOne "/srv/site/f.txt" (FsEntry.file [104, 101, 108, 108, 111] true))
        (fsOne "/srv/site/f.txt" (FsEntry.file [104, 105] true))
        "/srv/site" "/f.txt").1 =
      [WireEvent.statusLine 200,
       WireEvent.header "Content-type" "text/plain",
       WireEvent.header "Content-Length" "5",
       WireEvent.endHeaders,
       WireEvent.bodyBytes [104, 105]] ∧
    [104, 105].length ≠ 5 := by
  decide

/-- Claim C4: for every GET request path that normalizes inside the root
(passes the line-45 check) but whose resolved path is missing or is an
existing directory, the response is exactly the 404 error output — in
particular directories are never served. -/
theorem c4_missing_or_dir_404 (fs : FS) (cwd reqPath : String)
    (hpre : startsWithB (resolveGet cwd reqPath) cwd = true)
    (hfs : fs (resolveGet cwd reqPath) = FsEntry.missing ∨
           ∃ sz, fs (resolveGet cwd reqPath) = FsEntry.dir sz) :
    (do_GET fs cwd reqPath).1 = sendError 404 "File not found" ∧
    statusCodes (do_GET fs cwd reqPath).1 = [404] := by
  have hchk : pyExists (fs (resolveGet cwd reqPath)) = false ∨
      pyIsfile (fs (resolveGet cwd reqPath)) = false := by
    rcases hfs with h | ⟨sz, h⟩ <;> rw [h] <;> simp [pyExists, pyIsfile]
  have : (do_GET fs cwd reqPath).1 = sendError 404 "File not found" := by
    unfold do_GET do_GET_at serveFile
    rw [hpre, if_neg (by simp), if_pos hchk]
  exact ⟨this, by rw [this]; exact statusCodes_sendError 404 _⟩

/-- Witness for `c4_missing_or_dir_404`: a request resolving to an existing
directory under the root yields the 404 output. -/
theorem c4_missing_or_dir_404_witness :
    statusCodes (do_GET (fsOne "/srv/site/d" (FsEntry.dir 4096))
      "/srv/site" "/d").1 = [404] :=
  (c4_missing_or_dir_404 (fsOne "/srv/site/d" (FsEntry.dir 4096)) "/srv/site" "/d"
    (by decide) (Or.inr ⟨4096, by decide⟩)).2

/-- Strings with equal character data are equal. -/
theorem strExt {s t : String} (h : s.data = t.data) : s = t := by
  cases s; cases t; exact congrArg String.mk h

/-- A string is empty exactly when its data is. -/
theorem data_eq_nil_iff (s : String) : s.data = [] ↔ s = "" := by
  constructor
  · intro h
    cases s with
    | mk d => subst h; rfl
  · intro h; subst h; rfl

/-- `os.path.join` of a non-empty base not ending in `'/'` with a relative
component inserts a single separator. -/
theorem osJoin_eq (cwd b : String) (hb : b.data.take 1 ≠ ['/'])
    (h0 : cwd.data ≠ []) (h1 : cwd.data.getLast? ≠ some '/') :
    osJoin cwd b = String.mk (cwd.data ++ '/' :: b.data) := by
  unfold osJoin joinL
  rw [if_neg hb, if_neg (fun h => h.elim h0 h1)]

/-- The request paths `/` and `/index.html` resolve to the same candidate
`file_path` (lines 34-42). -/
theorem resolveGet_root_eq (cwd : String) :
    resolveGet cwd "/" = resolveGet cwd "/index.html" := by
  simp only [resolveGet, (by decide : urlPath "/" = "/"),
    (by decide : urlPath "/index.html" = "/index.html")]
  rw [if_pos trivial, if_neg (by decide)]

/-- Claim C5: GET `/` and GET `/index.html` produce identical wire output
under every filesystem state at every call site (same resolution, same
response — in particular the same 200 response when `index.html` exists and
is readable); and when the resolved `index.html` location is inside the root
but absent from the filesystem, GET `/` answers with the 404 error output. -/
theorem c5_root_equiv_index (fsE fsF fsS fsR : FS) (cwd : String) :
    do_GET_at fsE fsF fsS fsR cwd "/" = do_GET_at fsE fsF fsS fsR cwd "/index.html" ∧
    (startsWithB (resolveGet cwd "/") cwd = true →
     fsE (resolveGet cwd "/") = FsEntry.missing →
     statusCodes (do_GET_at fsE fsF fsS fsR cwd "/").1 = [404]) := by
  constructor
  · unfold do_GET_at
    rw [resolveGet_root_eq]
  · intro hpre hmiss
    have : (do_GET_at fsE fsF fsS fsR cwd "/").1 = sendError 404 "File not found" := by
      unfold do_GET_at serveFile
      rw [hpre, if_neg (by simp), if_pos (Or.inl (by rw [hmiss]; rfl))]
    rw [this]
    exact statusCodes_sendError 404 _

/-- Witness for `c5_root_equiv_index`: with no `index.html` under the root,
GET `/` yields the 404 output. -/
theorem c5_root_equiv_index_witness :
    statusCodes (do_GET_at (fun _ => FsEntry.missing) (fun _ => FsEntry.missing)
      (fun _ => FsEntry.missing) (fun _ => FsEntry.missing) "/srv/site" "/").1 = [404] :=
  (c5_root_equiv_index (fun _ => FsEntry.missing) (fun _ => FsEntry.missing)
    (fun _ => FsEntry.missing) (fun _ => FsEntry.missing) "/srv/site").2
    (by decide) (by decide)

/-- A filesystem with a readable `index.html` under the root and the root
directory itself present. -/
def fsRootAndIndex : FS := fun p =>
  if p = "/srv/site/index.html" then FsEntry.file [104] true
  else if p = "/srv/site" then FsEntry.dir 4096
  else FsEntry.missing

/-- Claim C6, counterexample: the request path `//` is empty after URL
parsing (the leading `//` is consumed as an authority), so the `path == '/'`
substitution of lines 35-36 does not fire: `//` resolves to the root
directory itself, not to `index.html` under it, and even with `index.html`
present the response to `//` is 404 while `/` is served with 200. -/
theorem c6_counterexample :
    resolveGet "/srv/site" "//" = "/srv/site" ∧
    resolveGet "/srv/site" "//" ≠ "/srv/site/index.html" ∧
    statusCodes (do_GET fsRootAndIndex "/srv/site" "//").1 = [404] ∧
    statusCodes (do_GET fsRootAndIndex "/srv/site" "/").1 = [200] := by
  decide

/-- Claim C6 (amended): for every root directory (non-empty, not ending in
`'/'`, stable under normalization of the joined paths), the path `/` — and
only it, not every path whose stripped form is empty — resolves to
`index.html` under the root; the path `//`, whose URL path component is
empty, resolves to the root directory itself, and GET `//` answers 404 when
the root is an existing directory. -/
theorem c6_root_resolution (cwd : String) (h0 : cwd ≠ "")
    (h1 : cwd.data.getLast? ≠ some '/')
    (h2 : normpathS (cwd ++ "/index.html") = cwd ++ "/index.html")
    (h3 : normpathS (cwd ++ "/") = cwd) :
    resolveGet cwd "/" = cwd ++ "/index.html" ∧
    resolveGet cwd "//" = cwd ∧
    (∀ (fs : FS) (sz : Nat), fs cwd = FsEntry.dir sz →
      (do_GET fs cwd "//").1 = sendError 404 "File not found") := by
  have h0d : cwd.data ≠ [] := fun hd => h0 ((data_eq_nil_iff cwd).mp hd)
  have hr1 : resolveGet cwd "/" = cwd ++ "/index.html" := by
    simp only [resolveGet, (by decide : urlPath "/" = "/")]
    rw [if_pos trivial, (by decide : lstripSlash "/index.html" = "index.html"),
      osJoin_eq cwd "index.html" (by decide) h0d h1]
    have : String.mk (cwd.data ++ '/' :: "index.html".data) = cwd ++ "/index.html" := by
      apply strExt
      rw [String.data_append]
    rw [this, h2]
  have hr2 : resolveGet cwd "//" = cwd := by
    simp only [resolveGet, (by decide : urlPath "//" = "")]
    rw [if_neg (by decide), (by decide : lstripSlash "" = ""),
      osJoin_eq cwd "" (by decide) h0d h1]
    have : String.mk (cwd.data ++ '/' :: "".data) = cwd ++ "/" := by
      apply strExt
      rw [String.data_append]
    rw [this, h3]
  refine ⟨hr1, hr2, fun fs sz hdir => ?_⟩
  unfold do_GET do_GET_at serveFile
  rw [hr2, startsWithB_self, if_neg (by simp),
    if_pos (Or.inr (by rw [hdir]; rfl))]

/-- Witness for `c6_root_resolution` at the concrete root `/srv/site`. -/
theorem c6_root_resolution_witness :
    resolveGet "/srv/site" "/" = "/srv/site" ++ "/index.html" ∧
    resolveGet "/srv/site" "//" = "/srv/site" ∧
    (do_GET fsRootAndIndex "/srv/site" "//").1 = sendError 404 "File not found" :=
  have h := c6_root_resolution "/srv/site" (by decide) (by decide) (by decide) (by decide)
  ⟨h.1, h.2.1, h.2.2 fsRootAndIndex 4096 (by decide)⟩

/-- Claim C7: when the checks of lines 45 and 50 pass but the serving phase
then fails — the entry vanished before `os.path.getsize` (line 62), or
`open` (line 66) hits an unreadable file, a directory, or a vanished path —
the `except` of line 69 emits the 500 error output carrying
`Internal Server Error: <str(e)>`, and the error page written as its body
contains that text verbatim (escaped; literally whenever escaping leaves the
message unchanged, e.g. for messages without `&`, `<`, `>`). -/
theorem c7_other_failure_500 (fsE fsF fsS fsR : FS) (cwd reqPath : String) (m : String)
    (hpre : startsWithB (resolveGet cwd reqPath) cwd = true)
    (hex : pyExists (fsE (resolveGet cwd reqPath)) = true)
    (hif : pyIsfile (fsF (resolveGet cwd reqPath)) = true)
    (hfail : readFailMsg fsS fsR (resolveGet cwd reqPath) = some m) :
    ∃ pre, (do_GET_at fsE fsF fsS fsR cwd reqPath).1 =
        pre ++ sendError 500 ("Internal Server Error: " ++ m) ∧
      (∃ b1 b2, errorPage 500 ("Internal Server Error: " ++ m) =
        b1 ++ htmlEscape ("Internal Server Error: " ++ m) ++ b2) ∧
      (htmlEscape ("Internal Server Error: " ++ m) = "Internal Server Error: " ++ m →
        ∃ b1 b2, errorPage 500 ("Internal Server Error: " ++ m) =
          b1 ++ ("Internal Server Error: " ++ m) ++ b2) := by
  have hcont := errorPage_contains 500 ("Internal Server Error: " ++ m)
  have hlit : (htmlEscape ("Internal Server Error: " ++ m) = "Internal Server Error: " ++ m →
      ∃ b1 b2, errorPage 500 ("Internal Server Error: " ++ m) =
        b1 ++ ("Internal Server Error: " ++ m) ++ b2) := by
    intro hesc
    rcases hcont with ⟨b1, b2, hb⟩
    exact ⟨b1, b2, by rw [hb, hesc]⟩
  unfold do_GET_at serveFile
  rw [hpre, if_neg (by simp), if_neg (by simp [hex, hif])]
  unfold readFailMsg at hfail
  cases hS : fsS (resolveGet cwd reqPath) with
  | missing =>
    rw [hS] at hfail
    have hm := Option.some.inj hfail
    subst hm
    exact ⟨_, rfl, hcont, hlit⟩
  | file c r =>
    cases hR : fsR (resolveGet cwd reqPath) with
    | file c2 r2 =>
      cases r2 with
      | true => rw [hS, hR] at hfail; exact Option.noConfusion hfail
      | false =>
        rw [hS, hR] at hfail
        have hm := Option.some.inj hfail
        subst hm
        exact ⟨_, rfl, hcont, hlit⟩
    | dir sz2 =>
      rw [hS, hR] at hfail
      have hm := Option.some.inj hfail
      subst hm
      exact ⟨_, rfl, hcont, hlit⟩
    | missing =>
      rw [hS, hR] at hfail
      have hm := Option.some.inj hfail
      subst hm
      exact ⟨_, rfl, hcont, hlit⟩
  | dir sz =>
    cases hR : fsR (resolveGet cwd reqPath) with
    | file c2 r2 =>
      cases r2 with
      | true => rw [hS, hR] at hfail; exact Option.noConfusion hfail
      | false =>
        rw [hS, hR] at hfail
        have hm := Option.some.inj hfail
        subst hm
        exact ⟨_, rfl, hcont, hlit⟩
    | dir sz2 =>
      rw [hS, hR] at hfail
      have hm := Option.some.inj hfail
      subst hm
      exact ⟨_, rfl, hcont, hlit⟩
    | missing =>
      rw [hS, hR] at hfail
      have hm := Option.some.inj hfail
      subst hm
      exact ⟨_, rfl, hcont, hlit⟩

/-- Witness for `c7_other_failure_500`: an existing but unreadable regular
file yields the 500 output with the `PermissionError` text in the error
page. -/
theorem c7_other_failure_500_witness :
    ∃ pre, (do_GET_at (fsOne "/srv/site/f.txt" (FsEntry.file [104] false))
        (fsOne "/srv/site/f.txt" (FsEntry.file [104] false))
        (fsOne "/srv/site/f.txt" (FsEntry.file [104] false))
        (fsOne "/srv/site/f.txt" (FsEntry.file [104] false))
        "/srv/site" "/f.txt").1 =
        pre ++ sendError 500 ("Internal Server Error: " ++ permDeniedMsg "/srv/site/f.txt") ∧
      (∃ b1 b2, errorPage 500 ("Internal Server Error: " ++ permDeniedMsg "/srv/site/f.txt") =
        b1 ++ htmlEscape ("Internal Server Error: " ++ permDeniedMsg "/srv/site/f.txt") ++ b2) ∧
      (htmlEscape ("Internal Server Error: " ++ permDeniedMsg "/srv/site/f.txt") =
          "Internal Server Error: " ++ permDeniedMsg "/srv/site/f.txt" →
        ∃ b1 b2, errorPage 500 ("Internal Server Error: " ++ permDeniedMsg "/srv/site/f.txt") =
          b1 ++ ("Internal Server Error: " ++ permDeniedMsg "/srv/site/f.txt") ++ b2) :=
  c7_other_failure_500 _ _ _ _ "/srv/site" "/f.txt" (permDeniedMsg "/srv/site/f.txt")
    (by decide) (by decide) (by decide) (by decide)

/-- Claim C8: for every request path and every UTF-8-decoded body, `do_POST`
responds with a single 200 status line, the `Content-type: text/html`
header, and a body that embeds the raw request path and the decoded data as
literal unescaped substrings of the fixed HTML template. -/
theorem c8_post_echo (path postData : String) :
    do_POST path postData =
      [WireEvent.statusLine 200,
       WireEvent.header "Content-type" "text/html",
       WireEvent.endHeaders,
       WireEvent.bodyText (postPage path postData)] ∧
    ∃ s1 s2 s3, postPage path postData = s1 ++ path ++ s2 ++ postData ++ s3 :=
  ⟨rfl,
   "\n        <html>\n        <head><title>POST Response</title></head>\n        <body>\n        <h1>POST Request Received</h1>\n        <p>Path: ",
   "</p>\n        <p>Data: ",
   "</p>\n        </body>\n        </html>\n        ",
   rfl⟩

/-- Claim C9, counterexample: a GET for an existing regular but unreadable
file does not produce a single terminal outcome: the wire output carries a
200 status line and headers followed by the 500 error output on the same
request. -/
theorem c9_counterexample :
    statusCodes (do_GET (fsOne "/srv/site/g.txt" (FsEntry.file [104] false))
      "/srv/site" "/g.txt").1 = [200, 500] := by
  decide

/-- Claim C9 (amended): every GET request produces exactly one of the single
terminal outputs 403, 404 or 200-with-body — except that when the serving
phase fails after `send_response(200)` of line 60 has buffered the 200
status line (the `getsize` of line 62 or the `open`/`read` of lines 66-67
raising), the single 500 error output follows that 200 status line on the
same request's wire output, giving the status-line sequence 200 then 500.  A
lone 500 never occurs on GET, no other combination occurs, and nothing is
ever retried. -/
theorem c9_response_shapes (fsE fsF fsS fsR : FS) (cwd reqPath : String) :
    statusCodes (do_GET_at fsE fsF fsS fsR cwd reqPath).1 = [403] ∨
    statusCodes (do_GET_at fsE fsF fsS fsR cwd reqPath).1 = [404] ∨
    statusCodes (do_GET_at fsE fsF fsS fsR cwd reqPath).1 = [200] ∨
    statusCodes (do_GET_at fsE fsF fsS fsR cwd reqPath).1 = [200, 500] := by
  unfold do_GET_at serveFile
  split
  · exact Or.inl rfl
  · split
    · exact Or.inr (Or.inl rfl)
    · split
      · exact Or.inr (Or.inr (Or.inr rfl))
      · split
        · exact Or.inr (Or.inr (Or.inl rfl))
        · exact Or.inr (Or.inr (Or.inr rfl))
        · exact Or.inr (Or.inr (Or.inr rfl))
        · exact Or.inr (Or.inr (Or.inr rfl))

/-! ### Lemmas for the query/fragment claim (C10) -/

/-- `dropWhile c0OrSpace` keeps a list headed by `'/'`. -/
theorem dropWhile_c0_head_slash (l : List Char) (hhd : l.head? = some '/') :
    l.dropWhile c0OrSpace = l := by
  cases l with
  | nil => simp at hhd
  | cons a t =>
    have ha : a = '/' := by simpa using hhd
    subst ha
    simp [List.dropWhile_cons, (by decide : c0OrSpace '/' = false)]

/-- `takeUntil` is the identity when the scissor character does not occur. -/
theorem takeUntil_not_mem (c : Char) (l : List Char) (h : ∀ x ∈ l, x ≠ c) :
    takeUntil c l = l := by
  induction l with
  | nil => rfl
  | cons x xs ih =>
    simp only [takeUntil]
    rw [if_neg (h x (List.mem_cons_self x xs)),
      ih fun y hy => h y (List.mem_cons_of_mem x hy)]

/-- `takeUntil` passes over an initial segment free of the scissor
character. -/
theorem takeUntil_append_not_mem (c : Char) (l1 l2 : List Char)
    (h : ∀ x ∈ l1, x ≠ c) :
    takeUntil c (l1 ++ l2) = l1 ++ takeUntil c l2 := by
  induction l1 with
  | nil => rfl
  | cons x xs ih =>
    simp only [List.cons_append, takeUntil, List.append_eq]
    rw [if_neg (h x (List.mem_cons_self x xs)),
      ih fun y hy => h y (List.mem_cons_of_mem x hy)]

/-- `takeUntil` cuts exactly at the first occurrence of the scissor. -/
theorem takeUntil_stop (c : Char) (l1 l2 : List Char) (h : ∀ x ∈ l1, x ≠ c) :
    takeUntil c (l1 ++ c :: l2) = l1 := by
  rw [takeUntil_append_not_mem c l1 (c :: l2) h]
  simp [takeUntil]

/-- Members of a `takeWhile` segment are members of the list. -/
theorem mem_of_mem_takeWhile (p : Char → Bool) (l : List Char) (x : Char)
    (h : x ∈ l.takeWhile p) : x ∈ l := by
  induction l with
  | nil => simp at h
  | cons a t ih =>
    rw [List.takeWhile_cons] at h
    by_cases hp : p a
    · rw [if_pos hp] at h
      rcases List.mem_cons.mp h with h1 | h1
      · exact List.mem_cons.mpr (Or.inl h1)
      · exact List.mem_cons_of_mem a (ih h1)
    · rw [if_neg hp] at h
      simp at h

/-- The params split is the identity on a path without `';'`. -/
theorem splitParamsL_not_mem (l : List Char) (h : ∀ x ∈ l, x ≠ ';') :
    splitParamsL l = l := by
  simp only [splitParamsL, afterLastSlash]
  have hdecomp : (l.reverse.dropWhile (fun c => c != '/')).reverse ++
      (l.reverse.takeWhile (fun c => c != '/')).reverse = l := by
    rw [← List.reverse_append, List.takeWhile_append_dropWhile, List.reverse_reverse]
  set seg := (l.reverse.takeWhile (fun c => c != '/')).reverse with hseg
  set pre := (l.reverse.dropWhile (fun c => c != '/')).reverse with hpre
  have hlen : l.length - seg.length = pre.length := by
    rw [← hdecomp, List.length_append]
    omega
  have htake : l.take (l.length - seg.length) = pre := by
    rw [hlen]
    conv_lhs => rw [← hdecomp]
    exact List.take_left pre seg
  have hsegmem : ∀ x ∈ seg, x ≠ ';' := by
    intro x hx
    refine h x ?_
    rw [hseg] at hx
    exact List.mem_reverse.mp
      (mem_of_mem_takeWhile _ _ x (List.mem_reverse.mp hx))
  rw [htake, takeUntil_not_mem ';' seg hsegmem]
  exact hdecomp

/-- A character above space cannot be tab, CR or LF. -/
theorem tabCrLf_false_of_not_c0 (c : Char) (h : c0OrSpace c = false) :
    tabCrLf c = false := by
  cases hq : tabCrLf c
  · rfl
  · exfalso
    have hcase := hq
    simp [tabCrLf] at hcase
    rcases hcase with (h1 | h1) | h1 <;> subst h1 <;> exact absurd h (by decide)

/-- The scheme split leaves a URL headed by `'/'` unchanged (`'/'` is not a
letter, so no well-formed scheme can precede a `':'`). -/
theorem schemeSplit_head_slash (l : List Char) (h : l.head? = some '/') :
    schemeSplit l = l := by
  unfold schemeSplit
  cases hf : l.findIdx? (fun c => c == ':') with
  | none => rfl
  | some i =>
    show (if 0 < i ∧ headIsAlpha l = true ∧ (List.take i l).all schemeChar = true then
      List.drop (i + 1) l else l) = l
    rw [if_neg]
    rintro ⟨hi, ha, hall⟩
    simp only [headIsAlpha, h] at ha
    exact absurd ha (by decide)

/-- On a clean origin-form path (leading `'/'`, not `"//"`, no control or
space characters, no `'?'`, `'#'` or `';'`), `urlparse` returns the path
unchanged. -/
theorem urlPathL_clean (t : List Char)
    (h2 : ('/' :: t).take 2 ≠ ['/', '/'])
    (hc : ∀ c ∈ ('/' :: t), c0OrSpace c = false ∧ c ≠ '?' ∧ c ≠ '#' ∧ c ≠ ';') :
    urlPathL ('/' :: t) = '/' :: t := by
  have hstrip : stripC0 ('/' :: t) = '/' :: t := by
    unfold stripC0
    exact dropWhile_c0_head_slash ('/' :: t) rfl
  have hfilter : ('/' :: t).filter (fun c => !(tabCrLf c)) = '/' :: t :=
    List.filter_eq_self.mpr fun c hm => by
      simp [tabCrLf_false_of_not_c0 c (hc c hm).1]
  have hns : schemeSplit ('/' :: t) = '/' :: t := schemeSplit_head_slash _ rfl
  simp only [urlPathL, hstrip, hfilter, hns]
  rw [if_neg h2,
    takeUntil_not_mem '#' _ (fun x hx => (hc x hx).2.2.1),
    takeUntil_not_mem '?' _ (fun x hx => (hc x hx).2.1),
    splitParamsL_not_mem _ (fun x hx => (hc x hx).2.2.2)]

/-- Appending `'?'` or `'#'` followed by anything to a clean origin-form
path leaves the parsed path component unchanged: queries and fragments are
invisible to path resolution. -/
theorem urlPathL_tail_ignored (t S : List Char) (d : Char) (hd : d = '?' ∨ d = '#')
    (h2 : ('/' :: t).take 2 ≠ ['/', '/'])
    (hc : ∀ c ∈ ('/' :: t), c0OrSpace c = false ∧ c ≠ '?' ∧ c ≠ '#' ∧ c ≠ ';') :
    urlPathL (('/' :: t) ++ d :: S) = '/' :: t := by
  have hdkeep : (!(tabCrLf d)) = true := by rcases hd with rfl | rfl <;> decide
  have hstrip : stripC0 (('/' :: t) ++ d :: S) = ('/' :: t) ++ d :: S := by
    unfold stripC0
    exact dropWhile_c0_head_slash (('/' :: t) ++ d :: S) rfl
  have hfilter : (('/' :: t) ++ d :: S).filter (fun c => !(tabCrLf c)) =
      ('/' :: t) ++ d :: S.filter (fun c => !(tabCrLf c)) := by
    rw [List.filter_append,
      List.filter_eq_self.mpr (fun c hm => by simp [tabCrLf_false_of_not_c0 c (hc c hm).1])]
    congr 1
    simp [List.filter_cons, hdkeep]
  have hns : schemeSplit (('/' :: t) ++ d :: S.filter (fun c => !(tabCrLf c))) =
      ('/' :: t) ++ d :: S.filter (fun c => !(tabCrLf c)) :=
    schemeSplit_head_slash _ rfl
  have htake2 : (('/' :: t) ++ d :: S.filter (fun c => !(tabCrLf c))).take 2 ≠
      ['/', '/'] := by
    cases t with
    | nil =>
      intro hcontra
      have hds : d = '/' := by simpa using hcontra
      rcases hd with rfl | rfl <;> exact absurd hds (by decide)
    | cons b t' =>
      intro hcontra
      apply h2
      simpa using hcontra
  simp only [urlPathL, hstrip, hfilter, hns]
  rw [if_neg htake2]
  rcases hd with rfl | rfl
  · have hcons : takeUntil '#' ('?' :: S.filter (fun c => !(tabCrLf c))) =
        '?' :: takeUntil '#' (S.filter (fun c => !(tabCrLf c))) := by
      simp only [takeUntil]
      rw [if_neg (by decide)]
    rw [takeUntil_append_not_mem '#' _ _ (fun x hx => (hc x hx).2.2.1), hcons,
      takeUntil_stop '?' _ _ (fun x hx => (hc x hx).2.1)]
    exact splitParamsL_not_mem _ (fun x hx => (hc x hx).2.2.2)
  · rw [takeUntil_stop '#' _ _ (fun x hx => (hc x hx).2.2.1),
      takeUntil_not_mem '?' _ (fun x hx => (hc x hx).2.1)]
    exact splitParamsL_not_mem _ (fun x hx => (hc x hx).2.2.2)

/-- Claim C10: only the path component of the parsed request target is used
for file resolution.  For every clean origin-form path `p` (leading `'/'`,
not starting `"//"`, no control/space characters and no `'?'`, `'#'`, `';'`)
and every suffix `s`, GET `p?s` and GET `p#s` produce exactly the wire
output of GET `p`, under the same filesystem — query strings and fragments
are ignored, so `GET /f?x=1` equals `GET /f`. -/
theorem c10_query_fragment_ignored (fs : FS) (cwd p s : String)
    (hP : p.data.head? = some '/')
    (h2 : p.data.take 2 ≠ ['/', '/'])
    (hc : ∀ c ∈ p.data, c0OrSpace c = false ∧ c ≠ '?' ∧ c ≠ '#' ∧ c ≠ ';') :
    do_GET fs cwd (p ++ "?" ++ s) = do_GET fs cwd p ∧
    do_GET fs cwd (p ++ "#" ++ s) = do_GET fs cwd p := by
  obtain ⟨t, ht⟩ : ∃ t, p.data = '/' :: t := by
    cases hp : p.data with
    | nil => rw [hp] at hP; simp at hP
    | cons a t =>
      rw [hp] at hP
      have ha : a = '/' := by simpa using hP
      exact ⟨t, by rw [ha]⟩
  rw [ht] at h2 hc
  have hdq : (p ++ "?" ++ s).data = ('/' :: t) ++ '?' :: s.data := by
    rw [String.data_append, String.data_append, ht]
    exact List.append_assoc _ _ _
  have hdf : (p ++ "#" ++ s).data = ('/' :: t) ++ '#' :: s.data := by
    rw [String.data_append, String.data_append, ht]
    exact List.append_assoc _ _ _
  have hq : urlPath (p ++ "?" ++ s) = p := by
    unfold urlPath
    rw [hdq, urlPathL_tail_ignored t s.data '?' (Or.inl rfl) h2 hc, ← ht]
  have hf : urlPath (p ++ "#" ++ s) = p := by
    unfold urlPath
    rw [hdf, urlPathL_tail_ignored t s.data '#' (Or.inr rfl) h2 hc, ← ht]
  have hp0 : urlPath p = p := by
    unfold urlPath
    rw [ht, urlPathL_clean t h2 hc, ← ht]
  constructor
  · unfold do_GET do_GET_at
    have hres : resolveGet cwd (p ++ "?" ++ s) = resolveGet cwd p := by
      simp only [resolveGet, hq, hp0]
    rw [hres]
  · unfold do_GET do_GET_at
    have hres : resolveGet cwd (p ++ "#" ++ s) = resolveGet cwd p := by
      simp only [resolveGet, hf, hp0]
    rw [hres]

/-- Witness for `c10_query_fragment_ignored`: `GET /f?x=1` and `GET /f#x=1`
give the same response as `GET /f`. -/
theorem c10_query_fragment_ignored_witness :
    do_GET (fsOne "/srv/site/f" (FsEntry.file [102] true)) "/srv/site" ("/f" ++ "?" ++ "x=1") =
      do_GET (fsOne "/srv/site/f" (FsEntry.file [102] true)) "/srv/site" "/f" ∧
    do_GET (fsOne "/srv/site/f" (FsEntry.file [102] true)) "/srv/site" ("/f" ++ "#" ++ "x=1") =
      do_GET (fsOne "/srv/site/f" (FsEntry.file [102] true)) "/srv/site" "/f" :=
  c10_query_fragment_ignored (fsOne "/srv/site/f" (FsEntry.file [102] true))
    "/srv/site" "/f" "x=1" (by decide) (by decide) (by decide)
